import Mathlib

/-!
Verification of the IMU analysis routine (`src/imu_analysis.py`).

The program reads a JSON array of sensor records, filters to records that
contain the three sub-objects `accelerometer`, `gyroscope` and `orientation`,
extracts five parallel sequences (timestamps, accel rows, gyro rows, pitch,
roll), computes noise (population standard deviation of row norms) and bias
(column-wise means, with a +1.0 gravity adjustment on the accel z column),
prints a report, plots pitch/roll against time since the first sample, saves
a PNG whose name embeds the first three characters of the input path, and
returns a four-field dictionary of statistics.

We embed the numeric pipeline over the reals (Python floats are modelled by
exact real arithmetic), JSON field access by `Option` lookups where a missing
key raises `KeyError`, and the whole fallible computation in `Except String`.
-/

namespace IMU

/-- A fully-populated 3-component vector, one row of a numpy Nx3 array. -/
structure Vec3 where
  x : ℝ
  y : ℝ
  z : ℝ

instance : Inhabited Vec3 := ⟨⟨0, 0, 0⟩⟩

/-- A JSON object expected to hold x/y/z: each field may be absent. -/
structure RawVec3 where
  x : Option ℝ
  y : Option ℝ
  z : Option ℝ

/-- A JSON object expected to hold pitch/roll: each field may be absent. -/
structure RawOrientation where
  pitch : Option ℝ
  roll : Option ℝ

/-- One parsed element of the top-level JSON array.  Any of the keys
`timestamp`, `accelerometer`, `gyroscope`, `orientation` may be absent,
and the sub-objects may themselves lack inner fields. -/
structure RawRecord where
  timestamp : Option ℝ
  accelerometer : Option RawVec3
  gyroscope : Option RawVec3
  orientation : Option RawOrientation

/-- The guard of the filter loop, line 23 of the source:
`if 'accelerometer' in entry and 'gyroscope' in entry and 'orientation' in entry`. -/
def hasRequiredKeys (r : RawRecord) : Bool :=
  r.accelerometer.isSome && r.gyroscope.isSome && r.orientation.isSome

/-- Python dictionary subscript `d[k]`: returns the value when the key is
present and raises `KeyError` otherwise. -/
def getKey {α : Type} (v : Option α) (k : String) : Except String α :=
  match v with
  | some a => Except.ok a
  | none => Except.error ("KeyError: " ++ k)

/-- The five parallel sequences built by the filter loop (lines 16-38). -/
structure Extracted where
  accelData : List Vec3
  gyroData : List Vec3
  timestamps : List ℝ
  pitchValues : List ℝ
  rollValues : List ℝ

/-- The filter-and-extract loop, lines 22-38 of the source: iterate in
order; a record missing one of the three sub-objects is skipped; an included
record has its accel x/y/z, gyro x/y/z, timestamp, pitch and roll read by
subscript, so a missing inner field raises `KeyError` and aborts. -/
def extractRecords : List RawRecord → Except String Extracted
  | [] => Except.ok ⟨[], [], [], [], []⟩
  | r :: rest =>
    if hasRequiredKeys r then do
      let acc ← getKey r.accelerometer "accelerometer"
      let ax ← getKey acc.x "x"
      let ay ← getKey acc.y "y"
      let az ← getKey acc.z "z"
      let gyr ← getKey r.gyroscope "gyroscope"
      let gx ← getKey gyr.x "x"
      let gy ← getKey gyr.y "y"
      let gz ← getKey gyr.z "z"
      let ts ← getKey r.timestamp "timestamp"
      let ori ← getKey r.orientation "orientation"
      let p ← getKey ori.pitch "pitch"
      let rl ← getKey ori.roll "roll"
      let tail ← extractRecords rest
      Except.ok ⟨⟨ax, ay, az⟩ :: tail.accelData, ⟨gx, gy, gz⟩ :: tail.gyroData,
        ts :: tail.timestamps, p :: tail.pitchValues, rl :: tail.rollValues⟩
    else extractRecords rest

/-- Row-wise Euclidean norm: `np.sqrt(np.sum(row**2))`, also
`calculate_vector_length` (line 6). -/
noncomputable def vecLength (v : Vec3) : ℝ :=
  Real.sqrt (v.x ^ 2 + v.y ^ 2 + v.z ^ 2)

/-- `np.mean` of a 1-D array (0 on the empty array only as a formal value;
the code never reaches that case). -/
noncomputable def npMean (l : List ℝ) : ℝ := l.sum / (l.length : ℝ)

/-- `np.std` of a 1-D array: the population standard deviation,
`sqrt(mean((x - mean)**2))`. -/
noncomputable def npStd (l : List ℝ) : ℝ :=
  Real.sqrt (npMean (l.map fun x => (x - npMean l) ^ 2))

/-- `np.mean(m, axis=0)`: column-wise mean of an Nx3 array. -/
noncomputable def colMean (m : List Vec3) : Vec3 :=
  ⟨npMean (m.map Vec3.x), npMean (m.map Vec3.y), npMean (m.map Vec3.z)⟩

/-- Lines 46-47: `gravity_adjusted_accel = accel_data.copy();
gravity_adjusted_accel[:, 2] += 1.0` — a copy of the array with 1.0 added
to the z column. -/
def gravityAdjust (m : List Vec3) : List Vec3 :=
  m.map fun v => ⟨v.x, v.y, v.z + 1.0⟩

/-- Every intermediate of the statistics block, lines 46-59. -/
structure StatsOutput where
  gravityAdjustedAccel : List Vec3
  accelLengths : List ℝ
  accel_noise : ℝ
  accel_bias : Vec3
  accel_bias_length : ℝ
  gyroLengths : List ℝ
  gyro_noise : ℝ
  gyro_bias : Vec3
  gyro_bias_length : ℝ

/-- Lines 46-59 of the source.  When the record list is empty,
`np.array([])` is 1-dimensional, so the column assignment
`gravity_adjusted_accel[:, 2] += 1.0` (line 47) raises `IndexError`; likewise
`np.sum(gyro_data**2, axis=1)` (line 56) raises `AxisError` on a
1-dimensional array.  With at least one row both arrays are Nx3 and the
block runs straight through. -/
noncomputable def computeStats (accelData gyroData : List Vec3) :
    Except String StatsOutput :=
  if accelData.isEmpty then Except.error "IndexError" else
  let gravityAdjustedAccel := gravityAdjust accelData
  let accelLengths := accelData.map vecLength
  let accel_noise := npStd accelLengths
  let accel_bias := colMean gravityAdjustedAccel
  let accel_bias_length := vecLength accel_bias
  if gyroData.isEmpty then Except.error "AxisError" else
  let gyroLengths := gyroData.map vecLength
  let gyro_noise := npStd gyroLengths
  let gyro_bias := colMean gyroData
  let gyro_bias_length := vecLength gyro_bias
  Except.ok ⟨gravityAdjustedAccel, accelLengths, accel_noise, accel_bias,
    accel_bias_length, gyroLengths, gyro_noise, gyro_bias, gyro_bias_length⟩

/-- Lines 76-80: shift timestamps to start at 0, guarded against the empty
array (`if len(timestamps) > 0`). -/
def adjustTimestamps (ts : List ℝ) : List ℝ :=
  if 0 < ts.length then ts.map (fun t => t - ts.headI) else ts

/-- Line 103: `'pitch_roll_time_series' + file_path[0:3] + '.png'`.
The Python slice `[0:3]` takes the first three characters (fewer when the
string is shorter). -/
def imageFilePath (filePath : String) : String :=
  "pitch_roll_time_series" ++ String.mk (filePath.data.take 3) ++ ".png"

/-- The dictionary returned at lines 106-111: exactly these four fields. -/
structure AnalysisResult where
  accel_noise : ℝ
  accel_bias : Vec3
  gyro_noise : ℝ
  gyro_bias : Vec3

/-- Everything `analyze_imu_data` produces: the statistics intermediates
(whose bias lengths are printed, not returned), the plotted time axis, the
path of the saved PNG, and the returned dictionary. -/
structure AnalysisOutput where
  stats : StatsOutput
  adjustedTimestamps : List ℝ
  imageFile : String
  result : AnalysisResult

/-- `analyze_imu_data`, lines 10-111, after JSON parsing: extraction
(lines 22-38), statistics (lines 46-59), report and plot (lines 61-104,
consuming `adjustTimestamps` and writing `imageFilePath`), and the returned
dictionary (lines 106-111).  An exception at any stage propagates and
nothing is returned. -/
noncomputable def analyze_imu_data (filePath : String) (data : List RawRecord) :
    Except String AnalysisOutput := do
  let e ← extractRecords data
  let s ← computeStats e.accelData e.gyroData
  Except.ok ⟨s, adjustTimestamps e.timestamps, imageFilePath filePath,
    ⟨s.accel_noise, s.accel_bias, s.gyro_noise, s.gyro_bias⟩⟩

/-- A fully-formed sensor record, the shape the spec calls SensorRecord. -/
structure SensorRecord where
  timestamp : ℝ
  accel : Vec3
  gyro : Vec3
  pitch : ℝ
  roll : ℝ

/-- Embed a fully-formed record as a raw JSON record with every key present. -/
def liftRecord (r : SensorRecord) : RawRecord :=
  ⟨some r.timestamp,
   some ⟨some r.accel.x, some r.accel.y, some r.accel.z⟩,
   some ⟨some r.gyro.x, some r.gyro.y, some r.gyro.z⟩,
   some ⟨some r.pitch, some r.roll⟩⟩

/-- Spec-side definition: the Euclidean norm of a 3-vector,
`sqrt(x² + y² + z²)`. -/
noncomputable def euclideanNorm (v : Vec3) : ℝ :=
  Real.sqrt (v.x ^ 2 + v.y ^ 2 + v.z ^ 2)

/-- Spec-side definition: the population standard deviation of a sample,
the square root of the mean squared deviation from the sample mean. -/
noncomputable def popStdSpec (l : List ℝ) : ℝ :=
  Real.sqrt ((l.map fun x => (x - l.sum / (l.length : ℝ)) ^ 2).sum / (l.length : ℝ))

/-- Spec-side definition: the column-wise mean of an Nx3 array. -/
noncomputable def colMeanSpec (m : List Vec3) : Vec3 :=
  ⟨(m.map Vec3.x).sum / (m.length : ℝ), (m.map Vec3.y).sum / (m.length : ℝ),
   (m.map Vec3.z).sum / (m.length : ℝ)⟩

/-- A raw record is internally complete when the three sub-objects, the
timestamp, and every inner field read by the loop body are all present.
The loop body raises `KeyError` on an included record exactly when this
fails. -/
def fieldsComplete (r : RawRecord) : Bool :=
  match r with
  | ⟨some _, some a, some g, some o⟩ =>
      a.x.isSome && a.y.isSome && a.z.isSome &&
      g.x.isSome && g.y.isSome && g.z.isSome &&
      o.pitch.isSome && o.roll.isSome
  | _ => false

/-- The timestamp the loop body reads (0 as a formal default, never used on
complete records). -/
def recTimestamp (r : RawRecord) : ℝ := r.timestamp.getD 0

/-- The accel row the loop body builds from an included record. -/
def recAccel (r : RawRecord) : Vec3 :=
  match r.accelerometer with
  | some a => ⟨a.x.getD 0, a.y.getD 0, a.z.getD 0⟩
  | none => default

/-- The gyro row the loop body builds from an included record. -/
def recGyro (r : RawRecord) : Vec3 :=
  match r.gyroscope with
  | some g => ⟨g.x.getD 0, g.y.getD 0, g.z.getD 0⟩
  | none => default

/-- The pitch value the loop body reads from an included record. -/
def recPitch (r : RawRecord) : ℝ :=
  match r.orientation with
  | some o => o.pitch.getD 0
  | none => 0

/-- The roll value the loop body reads from an included record. -/
def recRoll (r : RawRecord) : ℝ :=
  match r.orientation with
  | some o => o.roll.getD 0
  | none => 0

/-- A concrete valid record with accel magnitude 1. -/
def recA : SensorRecord := ⟨0, ⟨1, 0, 0⟩, ⟨1, 0, 0⟩, 0, 0⟩

/-- A concrete valid record with accel magnitude 3. -/
def recB : SensorRecord := ⟨1, ⟨3, 0, 0⟩, ⟨2, 0, 0⟩, 1, 1⟩

/-- A concrete record missing the `orientation` sub-object: the filter
skips it. -/
def noOrientationRec : RawRecord :=
  ⟨some 5, some ⟨some 1, some 1, some 1⟩, some ⟨some 1, some 1, some 1⟩, none⟩

/-- A concrete record that passes the filter (all three sub-objects present)
but lacks the inner `timestamp` key, so the loop body raises `KeyError`. -/
def noTimestampRec : RawRecord :=
  ⟨none, some ⟨some 0, some 0, some 0⟩, some ⟨some 0, some 0, some 0⟩,
   some ⟨some 0, some 0⟩⟩

/-- A concrete record that passes the filter but whose `orientation`
sub-object lacks the inner `pitch` key, so the loop body raises `KeyError`
at `entry['orientation']['pitch']`. -/
def noPitchRec : RawRecord :=
  ⟨some 7, some ⟨some 1, some 2, some 3⟩, some ⟨some 4, some 5, some 6⟩,
   some ⟨none, some 0⟩⟩

/-- The statistics block's output on the single record `recA`. -/
noncomputable def sampleStats : StatsOutput :=
  ⟨gravityAdjust [recA.accel], [recA.accel].map vecLength,
   npStd ([recA.accel].map vecLength), colMean (gravityAdjust [recA.accel]),
   vecLength (colMean (gravityAdjust [recA.accel])), [recA.gyro].map vecLength,
   npStd ([recA.gyro].map vecLength), colMean [recA.gyro],
   vecLength (colMean [recA.gyro])⟩

/-- The full analysis output on the single record `recA` and input path
`1.json`. -/
noncomputable def sampleOut : AnalysisOutput :=
  ⟨sampleStats, adjustTimestamps [recA.timestamp], imageFilePath "1.json",
   ⟨sampleStats.accel_noise, sampleStats.accel_bias, sampleStats.gyro_noise,
    sampleStats.gyro_bias⟩⟩

/-- A concrete mixed input: one valid record followed by one record the
filter skips. -/
def rs0 : List RawRecord := [liftRecord recA, noOrientationRec]

/-- The extraction output on `rs0`: only `recA` contributes. -/
def e0 : Extracted := ⟨[⟨1, 0, 0⟩], [⟨1, 0, 0⟩], [0], [0], [0]⟩

theorem extract_lift (recs : List SensorRecord) :
    extractRecords (recs.map liftRecord) =
      Except.ok ⟨recs.map SensorRecord.accel, recs.map SensorRecord.gyro,
        recs.map SensorRecord.timestamp, recs.map SensorRecord.pitch,
        recs.map SensorRecord.roll⟩ := by
  induction recs with
  | nil => rfl
  | cons r rest ih =>
    simp only [List.map_cons, extractRecords, liftRecord, hasRequiredKeys,
      Option.isSome_some, Bool.and_self, if_true, getKey, bind, Except.bind, ih]

theorem except_bind_ok {ε α β : Type} {x : Except ε α} {f : α → Except ε β} {b : β}
    (h : x >>= f = Except.ok b) : ∃ a, x = Except.ok a ∧ f a = Except.ok b := by
  cases x with
  | error e => simp [Bind.bind, Except.bind] at h
  | ok a => exact ⟨a, rfl, h⟩

theorem getKey_ok {α : Type} {v : Option α} {k : String} {a : α}
    (h : getKey v k = Except.ok a) : v = some a := by
  cases v with
  | none => simp [getKey] at h
  | some b => simpa [getKey] using h

theorem computeStats_eq (a g : List Vec3) (ha : a ≠ []) (hg : g ≠ []) :
    computeStats a g = Except.ok
      ⟨gravityAdjust a, a.map vecLength, npStd (a.map vecLength),
       colMean (gravityAdjust a), vecLength (colMean (gravityAdjust a)),
       g.map vecLength, npStd (g.map vecLength), colMean g,
       vecLength (colMean g)⟩ := by
  obtain ⟨x, xs, rfl⟩ := List.exists_cons_of_ne_nil ha
  obtain ⟨y, ys, rfl⟩ := List.exists_cons_of_ne_nil hg
  rfl

theorem computeStats_ok_elim {a g : List Vec3} {s : StatsOutput}
    (h : computeStats a g = Except.ok s) :
    s = ⟨gravityAdjust a, a.map vecLength, npStd (a.map vecLength),
      colMean (gravityAdjust a), vecLength (colMean (gravityAdjust a)),
      g.map vecLength, npStd (g.map vecLength), colMean g,
      vecLength (colMean g)⟩ := by
  cases a with
  | nil => simp [computeStats] at h
  | cons x xs =>
    cases g with
    | nil => simp [computeStats] at h
    | cons y ys =>
      rw [computeStats_eq (x :: xs) (y :: ys) (by simp) (by simp)] at h
      exact (Except.ok.injEq _ _ ▸ h.symm)

theorem analyze_ok_elim {fp : String} {data : List RawRecord} {out : AnalysisOutput}
    (h : analyze_imu_data fp data = Except.ok out) :
    ∃ e s, extractRecords data = Except.ok e ∧
      computeStats e.accelData e.gyroData = Except.ok s ∧
      out = ⟨s, adjustTimestamps e.timestamps, imageFilePath fp,
        ⟨s.accel_noise, s.accel_bias, s.gyro_noise, s.gyro_bias⟩⟩ := by
  unfold analyze_imu_data at h
  obtain ⟨e, he, h⟩ := except_bind_ok h
  obtain ⟨s, hs, h⟩ := except_bind_ok h
  exact ⟨e, s, he, hs, (by simpa using h.symm)⟩

theorem analyze_lift_eq (fp : String) (recs : List SensorRecord) (h : recs ≠ []) :
    analyze_imu_data fp (recs.map liftRecord) = Except.ok
      ⟨⟨gravityAdjust (recs.map SensorRecord.accel),
        (recs.map SensorRecord.accel).map vecLength,
        npStd ((recs.map SensorRecord.accel).map vecLength),
        colMean (gravityAdjust (recs.map SensorRecord.accel)),
        vecLength (colMean (gravityAdjust (recs.map SensorRecord.accel))),
        (recs.map SensorRecord.gyro).map vecLength,
        npStd ((recs.map SensorRecord.gyro).map vecLength),
        colMean (recs.map SensorRecord.gyro),
        vecLength (colMean (recs.map SensorRecord.gyro))⟩,
       adjustTimestamps (recs.map SensorRecord.timestamp), imageFilePath fp,
       ⟨npStd ((recs.map SensorRecord.accel).map vecLength),
        colMean (gravityAdjust (recs.map SensorRecord.accel)),
        npStd ((recs.map SensorRecord.gyro).map vecLength),
        colMean (recs.map SensorRecord.gyro)⟩⟩ := by
  have ha : recs.map SensorRecord.accel ≠ [] := by
    simpa [List.map_eq_nil_iff] using h
  have hg : recs.map SensorRecord.gyro ≠ [] := by
    simpa [List.map_eq_nil_iff] using h
  unfold analyze_imu_data
  rw [extract_lift recs]
  show computeStats (recs.map SensorRecord.accel) (recs.map SensorRecord.gyro) >>= _ = _
  rw [computeStats_eq _ _ ha hg]
  rfl

theorem npStd_eq_popStdSpec (l : List ℝ) : npStd l = popStdSpec l := by
  simp [npStd, popStdSpec, npMean]

theorem npStd_singleton (a : ℝ) : npStd [a] = 0 := by
  simp [npStd, npMean]

theorem analyze_sample :
    analyze_imu_data "1.json" ([recA].map liftRecord) = Except.ok sampleOut := by
  rw [analyze_lift_eq "1.json" [recA] (by simp)]
  rfl

theorem npMean_perm {l l' : List ℝ} (h : l.Perm l') : npMean l = npMean l' := by
  rw [npMean, npMean, h.sum_eq, h.length_eq]

theorem npStd_perm {l l' : List ℝ} (h : l.Perm l') : npStd l = npStd l' := by
  rw [npStd, npStd, npMean_perm h]
  exact congrArg Real.sqrt (npMean_perm (h.map _))

theorem colMean_perm {m m' : List Vec3} (h : m.Perm m') : colMean m = colMean m' := by
  rw [colMean, colMean, npMean_perm (h.map Vec3.x), npMean_perm (h.map Vec3.y),
    npMean_perm (h.map Vec3.z)]

theorem extract_eq_of_wf (rs : List RawRecord)
    (h : ∀ r ∈ rs, hasRequiredKeys r → fieldsComplete r) :
    extractRecords rs = Except.ok
      ⟨(rs.filter hasRequiredKeys).map recAccel,
       (rs.filter hasRequiredKeys).map recGyro,
       (rs.filter hasRequiredKeys).map recTimestamp,
       (rs.filter hasRequiredKeys).map recPitch,
       (rs.filter hasRequiredKeys).map recRoll⟩ := by
  induction rs with
  | nil => rfl
  | cons r rest ih =>
    have hrest : ∀ x ∈ rest, hasRequiredKeys x → fieldsComplete x :=
      fun x hx => h x (List.mem_cons_of_mem r hx)
    by_cases hk : hasRequiredKeys r
    · have hc : fieldsComplete r := h r (List.mem_cons_self r rest) hk
      obtain ⟨ts, acc, gyr, ori⟩ := r
      cases ts with
      | none => simp [fieldsComplete] at hc
      | some tv =>
        cases acc with
        | none => simp [hasRequiredKeys] at hk
        | some a =>
          cases gyr with
          | none => simp [hasRequiredKeys] at hk
          | some g =>
            cases ori with
            | none => simp [hasRequiredKeys] at hk
            | some o =>
              obtain ⟨axo, ayo, azo⟩ := a
              obtain ⟨gxo, gyo, gzo⟩ := g
              obtain ⟨po, ro⟩ := o
              obtain ⟨hax, hay, haz, hgx, hgy, hgz, hop, hor⟩ :
                  axo.isSome ∧ ayo.isSome ∧ azo.isSome ∧ gxo.isSome ∧
                  gyo.isSome ∧ gzo.isSome ∧ po.isSome ∧ ro.isSome := by
                simpa [fieldsComplete, Bool.and_assoc] using hc
              obtain ⟨ax, hax⟩ := Option.isSome_iff_exists.mp hax
              obtain ⟨ay, hay⟩ := Option.isSome_iff_exists.mp hay
              obtain ⟨az, haz⟩ := Option.isSome_iff_exists.mp haz
              obtain ⟨gx, hgx⟩ := Option.isSome_iff_exists.mp hgx
              obtain ⟨gy, hgy⟩ := Option.isSome_iff_exists.mp hgy
              obtain ⟨gz, hgz⟩ := Option.isSome_iff_exists.mp hgz
              obtain ⟨op, hop⟩ := Option.isSome_iff_exists.mp hop
              obtain ⟨orl, hor⟩ := Option.isSome_iff_exists.mp hor
              subst hax hay haz hgx hgy hgz hop hor
              simp only [extractRecords, hasRequiredKeys, Option.isSome_some,
                Bool.and_self, if_true, getKey, bind, Except.bind, ih hrest,
                List.filter_cons, List.map_cons]
              simp [recAccel, recGyro, recTimestamp, recPitch, recRoll,
                hasRequiredKeys]
    · have hk' : hasRequiredKeys r = false := by
        simpa using hk
      simp only [extractRecords, hk', Bool.false_eq_true, if_false, ih hrest,
        List.filter_cons, reduceIte]

theorem extract_all_invalid (rs : List RawRecord)
    (h : ∀ r ∈ rs, hasRequiredKeys r = false) :
    extractRecords rs = Except.ok ⟨[], [], [], [], []⟩ := by
  induction rs with
  | nil => rfl
  | cons r rest ih =>
    have hr := h r (List.mem_cons_self r rest)
    simp only [extractRecords, hr, Bool.false_eq_true, if_false]
    exact ih fun x hx => h x (List.mem_cons_of_mem r hx)

theorem colMean_eq_colMeanSpec (m : List Vec3) : colMean m = colMeanSpec m := by
  simp [colMean, colMeanSpec, npMean]

theorem computeStats_sample :
    computeStats [recA.accel] [recA.gyro] = Except.ok sampleStats := by
  rw [computeStats_eq _ _ (by simp) (by simp)]
  rfl

theorem extract_rs0 : extractRecords rs0 = Except.ok e0 := rfl

/-- Claim C3 is refuted at a concrete input: the claim quantifies over
every raw record sequence, but on a record that passes the three-key
filter while lacking the inner `pitch` key the pass aborts with `KeyError`
instead of contributing the record's fields to the five parallel
sequences — no sequences are produced at all. -/
theorem included_record_aborts_extraction :
    extractRecords [noPitchRec] = Except.error "KeyError: pitch" := rfl

/-- Claim C3 (amended): for every raw record sequence whose included
records are internally complete, the filtering pass iterates once in
original order, includes a record exactly when all three of
`accelerometer`, `gyroscope` and `orientation` are present, appends the
included record's timestamp, accel row, gyro row, pitch and roll to the
five parallel sequences, and the excluded count plus the included count
equals the input count.  (On other inputs the pass aborts with `KeyError`
at the first missing inner field, so no sequences are produced.) -/
theorem filter_extract_contract (rs : List RawRecord)
    (h : ∀ r ∈ rs, hasRequiredKeys r → fieldsComplete r) :
    extractRecords rs = Except.ok
      ⟨(rs.filter hasRequiredKeys).map recAccel,
       (rs.filter hasRequiredKeys).map recGyro,
       (rs.filter hasRequiredKeys).map recTimestamp,
       (rs.filter hasRequiredKeys).map recPitch,
       (rs.filter hasRequiredKeys).map recRoll⟩ ∧
    (rs.filter hasRequiredKeys).length +
      (rs.filter fun r => !hasRequiredKeys r).length = rs.length :=
  ⟨extract_eq_of_wf rs h, (List.length_eq_length_filter_add hasRequiredKeys).symm⟩

theorem filter_extract_contract_witness :
    (∀ r ∈ rs0, hasRequiredKeys r → fieldsComplete r) ∧
    (extractRecords rs0 = Except.ok
      ⟨(rs0.filter hasRequiredKeys).map recAccel,
       (rs0.filter hasRequiredKeys).map recGyro,
       (rs0.filter hasRequiredKeys).map recTimestamp,
       (rs0.filter hasRequiredKeys).map recPitch,
       (rs0.filter hasRequiredKeys).map recRoll⟩ ∧
     (rs0.filter hasRequiredKeys).length +
       (rs0.filter fun r => !hasRequiredKeys r).length = rs0.length) :=
  ⟨by decide, filter_extract_contract rs0 (by decide)⟩

/-- Claim C4 is refuted at a concrete input: a record that contains all
three required sub-objects but lacks the inner `timestamp` key makes the
loop body raise `KeyError`, so the analysis aborts with an error instead
of silently skipping the record. -/
theorem missing_inner_field_raises :
    analyze_imu_data "1.json" [noTimestampRec] =
      Except.error "KeyError: timestamp" := rfl

/-- Claim C4 (amended): a record missing any of the three required
sub-objects is silently skipped and never causes an error; but a record
that contains all three sub-objects and lacks an inner field (timestamp,
an axis component, pitch or roll) raises `KeyError` and aborts the
analysis.  When every included record is internally complete the
extraction succeeds. -/
theorem skip_missing_required_keys :
    (∀ (r : RawRecord) (rest : List RawRecord), hasRequiredKeys r = false →
      extractRecords (r :: rest) = extractRecords rest) ∧
    (∀ rs : List RawRecord, (∀ r ∈ rs, hasRequiredKeys r → fieldsComplete r) →
      (extractRecords rs).isOk = true) := by
  constructor
  · intro r rest hk
    simp [extractRecords, hk]
  · intro rs h
    rw [extract_eq_of_wf rs h]
    rfl

theorem skip_missing_required_keys_witness :
    hasRequiredKeys noOrientationRec = false ∧
    extractRecords [noOrientationRec] = extractRecords [] ∧
    (∀ r ∈ [liftRecord recA], hasRequiredKeys r → fieldsComplete r) ∧
    (extractRecords [liftRecord recA]).isOk = true :=
  ⟨by decide, skip_missing_required_keys.1 noOrientationRec [] (by decide),
   by decide, skip_missing_required_keys.2 [liftRecord recA] (by decide)⟩

/-- Claim C5: the gravity adjustment keeps the length, leaves every x and y
entry unchanged, adds exactly 1.0 to every z entry, and the raw
accelerometer array is left unmodified: the magnitudes used by the
statistics block are computed from the raw rows, and the adjusted array is
a separate (copied) list. -/
theorem gravityAdjust_shifts_z_only :
    (∀ m : List Vec3, (gravityAdjust m).length = m.length) ∧
    (∀ (m : List Vec3) (i : ℕ), i < m.length →
      ((gravityAdjust m).getD i default).x = (m.getD i default).x ∧
      ((gravityAdjust m).getD i default).y = (m.getD i default).y ∧
      ((gravityAdjust m).getD i default).z = (m.getD i default).z + 1.0) ∧
    (∀ (a g : List Vec3) (s : StatsOutput), computeStats a g = Except.ok s →
      s.accelLengths = a.map vecLength ∧
      s.gravityAdjustedAccel = gravityAdjust a) := by
  refine ⟨fun m => by simp [gravityAdjust], ?_, ?_⟩
  · intro m
    induction m with
    | nil => intro i hi; simp at hi
    | cons v vs ih =>
      intro i hi
      cases i with
      | zero => simp [gravityAdjust]
      | succ n =>
        have hn : n < vs.length := by simpa using hi
        simpa [gravityAdjust] using ih n hn
  · intro a g s hs
    have hse := computeStats_ok_elim hs
    subst hse
    exact ⟨rfl, rfl⟩

theorem gravityAdjust_shifts_z_only_witness :
    (0 < ([(⟨1, 2, 3⟩ : Vec3)] : List Vec3).length) ∧
    (((gravityAdjust [(⟨1, 2, 3⟩ : Vec3)]).getD 0 default).x =
        (([(⟨1, 2, 3⟩ : Vec3)] : List Vec3).getD 0 default).x ∧
      ((gravityAdjust [(⟨1, 2, 3⟩ : Vec3)]).getD 0 default).y =
        (([(⟨1, 2, 3⟩ : Vec3)] : List Vec3).getD 0 default).y ∧
      ((gravityAdjust [(⟨1, 2, 3⟩ : Vec3)]).getD 0 default).z =
        (([(⟨1, 2, 3⟩ : Vec3)] : List Vec3).getD 0 default).z + 1.0) ∧
    computeStats [recA.accel] [recA.gyro] = Except.ok sampleStats ∧
    (sampleStats.accelLengths = [recA.accel].map vecLength ∧
     sampleStats.gravityAdjustedAccel = gravityAdjust [recA.accel]) :=
  ⟨by norm_num, gravityAdjust_shifts_z_only.2.1 [⟨1, 2, 3⟩] 0 (by norm_num),
   computeStats_sample,
   gravityAdjust_shifts_z_only.2.2 [recA.accel] [recA.gyro] sampleStats
     computeStats_sample⟩

/-- Claim C6: whenever the filtering pass completes, the five derived
sequences — timestamps, accel array, gyro array, pitch list and roll
list — all have the same length, namely the number of records that pass
the filter. -/
theorem parallel_sequences_equal_length (rs : List RawRecord) (e : Extracted)
    (h : extractRecords rs = Except.ok e) :
    e.accelData.length = (rs.filter hasRequiredKeys).length ∧
    e.gyroData.length = (rs.filter hasRequiredKeys).length ∧
    e.timestamps.length = (rs.filter hasRequiredKeys).length ∧
    e.pitchValues.length = (rs.filter hasRequiredKeys).length ∧
    e.rollValues.length = (rs.filter hasRequiredKeys).length := by
  induction rs generalizing e with
  | nil =>
    obtain rfl : (⟨[], [], [], [], []⟩ : Extracted) = e := by
      simpa [extractRecords] using h
    simp
  | cons r rest ih =>
    rw [extractRecords] at h
    by_cases hk : hasRequiredKeys r
    · rw [if_pos hk] at h
      obtain ⟨acc, _, h⟩ := except_bind_ok h
      obtain ⟨ax, _, h⟩ := except_bind_ok h
      obtain ⟨ay, _, h⟩ := except_bind_ok h
      obtain ⟨az, _, h⟩ := except_bind_ok h
      obtain ⟨gyr, _, h⟩ := except_bind_ok h
      obtain ⟨gx, _, h⟩ := except_bind_ok h
      obtain ⟨gy, _, h⟩ := except_bind_ok h
      obtain ⟨gz, _, h⟩ := except_bind_ok h
      obtain ⟨ts, _, h⟩ := except_bind_ok h
      obtain ⟨ori, _, h⟩ := except_bind_ok h
      obtain ⟨p, _, h⟩ := except_bind_ok h
      obtain ⟨rl, _, h⟩ := except_bind_ok h
      obtain ⟨tail, htail, h⟩ := except_bind_ok h
      obtain rfl : (⟨⟨ax, ay, az⟩ :: tail.accelData, ⟨gx, gy, gz⟩ :: tail.gyroData,
          ts :: tail.timestamps, p :: tail.pitchValues,
          rl :: tail.rollValues⟩ : Extracted) = e := by
        simpa using h
      have hl := ih tail htail
      simp only [List.filter_cons_of_pos hk, List.length_cons]
      exact ⟨by rw [hl.1], by rw [hl.2.1], by rw [hl.2.2.1],
        by rw [hl.2.2.2.1], by rw [hl.2.2.2.2]⟩
    · rw [if_neg hk] at h
      have hk' : hasRequiredKeys r = false := by simpa using hk
      simpa [List.filter_cons_of_neg, hk'] using ih e h

theorem parallel_sequences_equal_length_witness :
    extractRecords rs0 = Except.ok e0 ∧
    (e0.accelData.length = (rs0.filter hasRequiredKeys).length ∧
     e0.gyroData.length = (rs0.filter hasRequiredKeys).length ∧
     e0.timestamps.length = (rs0.filter hasRequiredKeys).length ∧
     e0.pitchValues.length = (rs0.filter hasRequiredKeys).length ∧
     e0.rollValues.length = (rs0.filter hasRequiredKeys).length) :=
  ⟨extract_rs0, parallel_sequences_equal_length rs0 e0 extract_rs0⟩

/-- Claim C7: for a non-empty timestamp sequence the plotted time axis is
the sequence with its first element subtracted from every element; the
empty sequence is passed through unchanged with no indexing into it; and
`[10.0, 12.0, 15.0]` becomes `[0.0, 2.0, 5.0]`. -/
theorem adjustTimestamps_rule :
    (∀ (t : ℝ) (rest : List ℝ),
      adjustTimestamps (t :: rest) = (t :: rest).map fun x => x - t) ∧
    adjustTimestamps ([] : List ℝ) = [] ∧
    adjustTimestamps [(10 : ℝ), 12, 15] = [0, 2, 5] := by
  refine ⟨fun t rest => by simp [adjustTimestamps], rfl, ?_⟩
  norm_num [adjustTimestamps, List.headI]

/-- Claim C8: the PNG path produced by the analysis is the fixed prefix
`pitch_roll_time_series`, followed by the first three characters of the
input path, followed by `.png`. -/
theorem image_path_rule :
    (∀ (fp : String) (data : List RawRecord) (out : AnalysisOutput),
      analyze_imu_data fp data = Except.ok out →
      out.imageFile =
        "pitch_roll_time_series" ++ String.mk (fp.data.take 3) ++ ".png") ∧
    imageFilePath "1.json" = "pitch_roll_time_series1.j.png" := by
  constructor
  · intro fp data out h
    obtain ⟨e, s, he, hs, rfl⟩ := analyze_ok_elim h
    rfl
  · rfl

theorem image_path_rule_witness :
    analyze_imu_data "1.json" ([recA].map liftRecord) = Except.ok sampleOut ∧
    sampleOut.imageFile =
      "pitch_roll_time_series" ++ String.mk ("1.json".data.take 3) ++ ".png" :=
  ⟨analyze_sample,
   image_path_rule.1 "1.json" ([recA].map liftRecord) sampleOut analyze_sample⟩

/-- Claim C9: when no record passes the filter, the statistics block
raises (`gravity_adjusted_accel[:, 2]` on the 1-dimensional empty array is
an `IndexError`) before anything is printed or plotted, so the analysis
never returns a result — in particular no dictionary of NaN statistics. -/
theorem zero_valid_records_error (fp : String) (rs : List RawRecord)
    (h : ∀ r ∈ rs, hasRequiredKeys r = false) :
    analyze_imu_data fp rs = Except.error "IndexError" := by
  unfold analyze_imu_data
  rw [extract_all_invalid rs h]
  rfl

theorem zero_valid_records_error_witness :
    (∀ r ∈ [noOrientationRec], hasRequiredKeys r = false) ∧
    analyze_imu_data "1.json" [noOrientationRec] = Except.error "IndexError" :=
  ⟨by decide, zero_valid_records_error "1.json" [noOrientationRec] (by decide)⟩

theorem vecLength_one : vecLength ⟨1, 0, 0⟩ = 1 := by
  show Real.sqrt ((1 : ℝ) ^ 2 + 0 ^ 2 + 0 ^ 2) = 1
  rw [show ((1 : ℝ) ^ 2 + 0 ^ 2 + 0 ^ 2) = 1 by norm_num, Real.sqrt_one]

theorem vecLength_three : vecLength ⟨3, 0, 0⟩ = 3 := by
  show Real.sqrt ((3 : ℝ) ^ 2 + 0 ^ 2 + 0 ^ 2) = 3
  rw [show ((3 : ℝ) ^ 2 + 0 ^ 2 + 0 ^ 2) = (3 : ℝ) ^ 2 by norm_num,
    Real.sqrt_sq (by norm_num : (0 : ℝ) ≤ 3)]

theorem npStd_one_three : npStd [(1 : ℝ), 3] = 1 := by
  have hm : npMean [(1 : ℝ), 3] = 2 := by
    norm_num [npMean, List.sum_cons, List.sum_nil]
  rw [npStd, hm]
  have h2 : npMean ([(1 : ℝ), 3].map fun x => (x - 2) ^ 2) = 1 := by
    norm_num [npMean, List.sum_cons, List.sum_nil]
  rw [h2, Real.sqrt_one]

/-- Claim C1: for every non-empty valid-record sequence, the accel noise
returned by the analysis is the population standard deviation of the
row-wise Euclidean norms of the raw accelerometer array (not the
gravity-adjusted one), and likewise the gyro noise is that of the raw gyro
array; two records with accel magnitudes 1.0 and 3.0 give accel noise
exactly 1.0; a single record gives noise 0.0 on both channels. -/
theorem noise_is_popStd_of_raw_norms :
    (∀ (fp : String) (recs : List SensorRecord), recs ≠ [] →
      (analyze_imu_data fp (recs.map liftRecord)).map
          (fun o => (o.result.accel_noise, o.result.gyro_noise)) =
        Except.ok (popStdSpec (recs.map fun r => euclideanNorm r.accel),
          popStdSpec (recs.map fun r => euclideanNorm r.gyro))) ∧
    (analyze_imu_data "1.json" ([recA, recB].map liftRecord)).map
        (fun o => o.result.accel_noise) = Except.ok 1 ∧
    (∀ (fp : String) (r : SensorRecord),
      (analyze_imu_data fp ([r].map liftRecord)).map
          (fun o => (o.result.accel_noise, o.result.gyro_noise)) =
        Except.ok (0, 0)) := by
  refine ⟨?_, ?_, ?_⟩
  · intro fp recs h
    rw [analyze_lift_eq fp recs h]
    simp only [Except.map]
    rw [List.map_map, List.map_map, npStd_eq_popStdSpec, npStd_eq_popStdSpec]
    rfl
  · rw [analyze_lift_eq "1.json" [recA, recB] (by simp)]
    simp only [Except.map, List.map_cons, List.map_nil]
    show Except.ok (npStd [vecLength recA.accel, vecLength recB.accel]) =
      Except.ok 1
    rw [show vecLength recA.accel = 1 from vecLength_one,
      show vecLength recB.accel = 3 from vecLength_three, npStd_one_three]
  · intro fp r
    rw [analyze_lift_eq fp [r] (by simp)]
    simp only [Except.map, List.map_cons, List.map_nil]
    show Except.ok (npStd [vecLength r.accel], npStd [vecLength r.gyro]) =
      Except.ok (0, 0)
    rw [npStd_singleton, npStd_singleton]

theorem noise_is_popStd_of_raw_norms_witness :
    ([recA] : List SensorRecord) ≠ [] ∧
    (analyze_imu_data "1.json" ([recA].map liftRecord)).map
        (fun o => (o.result.accel_noise, o.result.gyro_noise)) =
      Except.ok (popStdSpec ([recA].map fun r => euclideanNorm r.accel),
        popStdSpec ([recA].map fun r => euclideanNorm r.gyro)) :=
  ⟨by simp, noise_is_popStd_of_raw_norms.1 "1.json" [recA] (by simp)⟩

/-- Claim C2: for every non-empty valid-record sequence, the returned
accel bias is the column-wise mean of the gravity-adjusted accelerometer
array and the gyro bias is the column-wise mean of the raw gyro array; the
bias lengths (printed, not returned) are the Euclidean norms of those
3-vectors; and the returned structure carries exactly the four fields
accel_noise, accel_bias, gyro_noise, gyro_bias (the `AnalysisResult` type
mirrors the dictionary literal of lines 106-111). -/
theorem bias_and_result_shape :
    (∀ (fp : String) (recs : List SensorRecord), recs ≠ [] →
      (analyze_imu_data fp (recs.map liftRecord)).map
          (fun o => (o.result.accel_bias, o.result.gyro_bias)) =
        Except.ok (colMeanSpec (gravityAdjust (recs.map SensorRecord.accel)),
          colMeanSpec (recs.map SensorRecord.gyro))) ∧
    (∀ (fp : String) (data : List RawRecord) (out : AnalysisOutput),
      analyze_imu_data fp data = Except.ok out →
      out.stats.accel_bias_length = euclideanNorm out.result.accel_bias ∧
      out.stats.gyro_bias_length = euclideanNorm out.result.gyro_bias ∧
      out.result = ⟨out.stats.accel_noise, out.stats.accel_bias,
        out.stats.gyro_noise, out.stats.gyro_bias⟩) := by
  constructor
  · intro fp recs h
    rw [analyze_lift_eq fp recs h]
    simp only [Except.map]
    rw [colMean_eq_colMeanSpec, colMean_eq_colMeanSpec]
  · intro fp data out h
    obtain ⟨e, s, he, hs, rfl⟩ := analyze_ok_elim h
    have hse := computeStats_ok_elim hs
    subst hse
    exact ⟨rfl, rfl, rfl⟩

theorem bias_and_result_shape_witness :
    ([recA] : List SensorRecord) ≠ [] ∧
    (analyze_imu_data "1.json" ([recA].map liftRecord)).map
        (fun o => (o.result.accel_bias, o.result.gyro_bias)) =
      Except.ok (colMeanSpec (gravityAdjust ([recA].map SensorRecord.accel)),
        colMeanSpec ([recA].map SensorRecord.gyro)) ∧
    analyze_imu_data "1.json" ([recA].map liftRecord) = Except.ok sampleOut ∧
    (sampleOut.stats.accel_bias_length =
        euclideanNorm sampleOut.result.accel_bias ∧
      sampleOut.stats.gyro_bias_length =
        euclideanNorm sampleOut.result.gyro_bias ∧
      sampleOut.result = ⟨sampleOut.stats.accel_noise,
        sampleOut.stats.accel_bias, sampleOut.stats.gyro_noise,
        sampleOut.stats.gyro_bias⟩) :=
  ⟨by simp, bias_and_result_shape.1 "1.json" [recA] (by simp), analyze_sample,
   bias_and_result_shape.2 "1.json" ([recA].map liftRecord) sampleOut
     analyze_sample⟩

/-- Claim C10: under exact arithmetic the four returned statistics are
invariant under permutation of the valid records: means and population
standard deviations depend only on the multiset of record values. -/
theorem statistics_permutation_invariant (fp fp' : String)
    (recs recs' : List SensorRecord) (hp : recs.Perm recs') (h : recs ≠ []) :
    (analyze_imu_data fp (recs.map liftRecord)).map AnalysisOutput.result =
      (analyze_imu_data fp' (recs'.map liftRecord)).map
        AnalysisOutput.result := by
  have h' : recs' ≠ [] := by
    intro hh
    exact h (List.length_eq_zero.mp (by rw [hp.length_eq, hh, List.length_nil]))
  rw [analyze_lift_eq fp recs h, analyze_lift_eq fp' recs' h']
  simp only [Except.map]
  have hA := hp.map SensorRecord.accel
  have hG := hp.map SensorRecord.gyro
  congr 1
  simp only [AnalysisResult.mk.injEq]
  refine ⟨npStd_perm (hA.map _), colMean_perm (hA.map _),
    npStd_perm (hG.map _), colMean_perm hG⟩

theorem statistics_permutation_invariant_witness :
    ([recA, recB] : List SensorRecord).Perm [recB, recA] ∧
    ([recA, recB] : List SensorRecord) ≠ [] ∧
    (analyze_imu_data "1.json" ([recA, recB].map liftRecord)).map
        AnalysisOutput.result =
      (analyze_imu_data "2.json" ([recB, recA].map liftRecord)).map
        AnalysisOutput.result :=
  ⟨List.Perm.swap recB recA [], by simp,
   statistics_permutation_invariant "1.json" "2.json" [recA, recB]
     [recB, recA] (List.Perm.swap recB recA []) (by simp)⟩

end IMU
